import Mathlib

/-!
Verification of the request-fingerprint cache with TTL eviction implemented in
`src/backend/Agents/cache.py`.

The Python module keeps a process-wide dict `_cache : key → {"response": ..,
"timestamp": ..}`, two module-level configuration globals (`CACHE_ENABLED`,
`CACHE_TTL_HOURS`), a key-derivation function `_generate_cache_key`, the store
operations `get_cached_response` / `set_cached_response` / `clear_cache` /
`get_cache_stats`, and two async hooks `before_model_callback` /
`after_model_callback`.

Embedding conventions:
* The dict is an association list `Store α` with unique keys maintained by the
  operations; lookup, deletion and replacing insertion mirror dict semantics.
* `datetime.now()` is an explicit `now : Int` argument; the stored timestamp
  and the TTL are measured in the same abstract time unit, and the expiry test
  `datetime.now() - cached_time > timedelta(hours=CACHE_TTL_HOURS)` becomes
  `now - ts > cfg.ttl`.
* The module globals become an explicit `CacheConfig` argument.
* `hashlib.sha256(..).hexdigest()` is an arbitrary deterministic function
  `hash : String → String` passed as a parameter: every property proved here
  holds for the real digest in particular.
* The dict values of a cache entry are `Option`-valued because the Python code
  defensively handles entries lacking the `"timestamp"` or `"response"` keys
  (`cached_item.get(..)`).
* Python exceptions are modelled with `Except String`: the hooks' `try/except`
  blocks become a handler that maps any `Except.error` to a miss, and the
  hooks' result type is `Except` so that "propagates an exception to the
  caller" is expressible as returning `Except.error`.
-/

namespace BeaconCache

/-- One value of the `_cache` dict: `\x7b"response": resp, "timestamp": ts\x7d`.
Both fields are optional because `get_cached_response` reads them with
`dict.get`, which yields `None` when the field is missing. -/
structure CacheEntry (α : Type) where
  response : Option α
  timestamp : Option Int
deriving DecidableEq, Repr

/-- The module-level dict `_cache : Dict[str, Dict[str, Any]]`, as an
association list with unique keys. -/
abbrev Store (α : Type) : Type := List (String × CacheEntry α)

/-- Dict lookup `_cache[cache_key]` / membership test `cache_key in _cache`. -/
def storeFind {α : Type} : Store α → String → Option (CacheEntry α)
  | [], _ => none
  | (k₁, e₁) :: t, k => if k₁ = k then some e₁ else storeFind t k

/-- Dict deletion `del _cache[cache_key]` (a no-op when the key is absent;
the Python code only deletes keys it has just looked up). -/
def storeErase {α : Type} : Store α → String → Store α
  | [], _ => []
  | (k₁, e₁) :: t, k => if k₁ = k then storeErase t k else (k₁, e₁) :: storeErase t k

/-- Dict assignment `_cache[cache_key] = entry`: last write wins, at most one
entry per key. -/
def storeInsert {α : Type} (c : Store α) (k : String) (e : CacheEntry α) : Store α :=
  (k, e) :: storeErase c k

/-- The module globals `CACHE_ENABLED` and `CACHE_TTL_HOURS`, read once from
the environment at import time. `ttl` is the TTL as a duration in the same
abstract unit as timestamps. -/
structure CacheConfig where
  enabled : Bool
  ttl : Int
deriving DecidableEq, Repr

/-- Python `get_cached_response(cache_key)`: returns the cached response if
present and unexpired; deletes invalid or expired entries as a side effect.
The mutated store is returned as the second component. -/
def get_cached_response {α : Type} (cfg : CacheConfig) (now : Int) (cache : Store α)
    (key : String) : Option α × Store α :=
  if !cfg.enabled then (none, cache)
  else
    match storeFind cache key with
    | none => (none, cache)
    | some item =>
      match item.timestamp with
      | none => (none, storeErase cache key)
      | some ts =>
        if now - ts > cfg.ttl then (none, storeErase cache key)
        else (item.response, cache)

/-- Python `set_cached_response(cache_key, response)`: stores the response
with the current timestamp; a no-op when the cache is disabled. -/
def set_cached_response {α : Type} (cfg : CacheConfig) (now : Int) (cache : Store α)
    (key : String) (v : α) : Store α :=
  if !cfg.enabled then cache
  else storeInsert cache key ⟨some v, some now⟩

/-- Python `clear_cache()`: rebinds the global `_cache` to a fresh empty dict. -/
def clear_cache {α : Type} : Store α := []

/-- The dict returned by `get_cache_stats()`. -/
structure CacheStats where
  enabled : Bool
  size : Nat
  ttl : Int
deriving DecidableEq, Repr

/-- Python `get_cache_stats()`: `\x7b"enabled": .., "size": len(_cache),
"ttl_hours": ..\x7d`. -/
def get_cache_stats {α : Type} (cfg : CacheConfig) (cache : Store α) : CacheStats :=
  ⟨cfg.enabled, cache.length, cfg.ttl⟩

/-! ### Key generation (`_generate_cache_key`) -/

/-- Python whitespace test used by `str.strip()` (ASCII fragment). -/
def isSpaceChar (c : Char) : Bool :=
  c = ' ' || c = '\t' || c = '\n' || c = '\r'

/-- Python `s.strip()`: remove leading and trailing whitespace. -/
def pyStrip (s : String) : String :=
  String.mk (((s.data.dropWhile isSpaceChar).reverse.dropWhile isSpaceChar).reverse)

/-- Python `s.lower()` (ASCII fragment): lowercase every character. -/
def pyLower (s : String) : String :=
  String.mk (s.data.map Char.toLower)

/-- Python `prompt.strip().lower()`, the prompt normalization inside
`_generate_cache_key`. -/
def normalizePrompt (p : String) : String := pyLower (pyStrip p)

/-- Escaping of one character inside a JSON string literal, as `json.dumps`
does for the quote and backslash characters. -/
def jsonEscapeChar (c : Char) : String :=
  if c = '"' then "\\\"" else if c = '\\' then "\\\\" else String.singleton c

/-- JSON string literal for `s`, as produced by `json.dumps`. -/
def jsonQuote (s : String) : String :=
  "\"" ++ String.join (s.toList.map jsonEscapeChar) ++ "\""

/-- Lexicographic comparison of character lists by code point, the order
Python uses to compare strings (and hence the order `sort_keys=True` sorts
dict keys in). -/
def charListLe : List Char → List Char → Bool
  | [], _ => true
  | _ :: _, [] => false
  | a :: as, b :: bs =>
    if a.toNat < b.toNat then true
    else if b.toNat < a.toNat then false
    else charListLe as bs

/-- Python string comparison `a <= b` by code points. -/
def strLe (a b : String) : Bool := charListLe a.data b.data

/-- The key order used to model `json.dumps(.., sort_keys=True)` on the
config mapping: pairs ordered by their key. -/
def keyRel (a b : String × String) : Prop := strLe a.1 b.1 = true

instance : DecidableRel keyRel := fun a b => instDecidableEqBool (strLe a.1 b.1) true

/-- Serialization of the config mapping as `json.dumps` renders a dict with
`sort_keys=True`: entries sorted by key, `", "` and `": "` separators. -/
def configJson (c : List (String × String)) : String :=
  "\x7b" ++ String.intercalate ", "
    ((List.insertionSort keyRel c).map
      (fun p => jsonQuote p.1 ++ ": " ++ jsonQuote p.2)) ++ "\x7d"

/-- The string `cache_str = json.dumps(cache_data, sort_keys=True)` built by
`_generate_cache_key`: the top-level keys `"config" < "model" < "prompt"`
appear in sorted order, and `config or \x7b\x7d` replaces an absent config by
the empty mapping. -/
def cacheStr (p m : String) (config : Option (List (String × String))) : String :=
  "\x7b\"config\": " ++ configJson (config.getD []) ++
    ", \"model\": " ++ jsonQuote m ++
    ", \"prompt\": " ++ jsonQuote (normalizePrompt p) ++ "\x7d"

/-- Python `_generate_cache_key(prompt, model_name, config)`: the digest of
the canonical serialization. The digest function `hash` models
`hashlib.sha256(..).hexdigest()`. -/
def generate_cache_key (hash : String → String) (p m : String)
    (config : Option (List (String × String))) : String :=
  hash (cacheStr p m config)

/-- Python `_generate_cache_key` viewed as a possibly-raising computation: on
string arguments the body (`.strip()`, `.lower()`, `json.dumps`, `sha256`)
never raises, so the result is always `Except.ok` of the digest. -/
def generate_cache_keyE (hash : String → String) (p m : String)
    (config : Option (List (String × String))) : Except String String :=
  Except.ok (generate_cache_key hash p m config)

/-! ### Hook layer (`before_model_callback`, `after_model_callback`) -/

/-- One element of `llm_request.messages`: an object carrying an optional
`content` attribute (the Python code accepts either an attribute or a dict
field of that name; both read as "an optional string"). -/
structure Message where
  content : Option String
deriving DecidableEq, Repr

/-- The duck-typed `llm_request` object, with each attribute the callbacks
probe via `hasattr` made optional. -/
structure LlmRequest where
  prompt : Option String
  messages : Option (List Message)
  model : Option String
  model_name : Option String
  config : Option (List (String × String))
deriving DecidableEq, Repr

/-- The duck-typed `llm_response` object: either an object probed with
`hasattr(.., "content")` / `hasattr(.., "text")`, or a dict read with
`llm_response.get("content") or llm_response.get("text")`. -/
inductive LlmResponse where
  | obj (content : Option String) (text : Option String)
  | dict (content : Option String) (text : Option String)
deriving DecidableEq, Repr

/-- Python truthiness test `not x` on an optional string: true for `None` and
for the empty string. -/
def falsyStr : Option String → Bool
  | none => true
  | some s => s.isEmpty

/-- Python `a or b` on two optional strings: `b` when `a` is falsy. -/
def pyOr (a b : Option String) : Option String :=
  match a with
  | none => b
  | some s => if s.isEmpty then b else some s

/-- Prompt extraction shared by both callbacks: `llm_request.prompt` when the
attribute exists, else the `content` of the last element of
`llm_request.messages` when that list exists and is non-empty. -/
def extract_prompt (r : LlmRequest) : Option String :=
  match r.prompt with
  | some p => some p
  | none =>
    match r.messages with
    | some msgs => msgs.getLast?.bind (fun msg => msg.content)
    | none => none

/-- Model-name extraction shared by both callbacks: `llm_request.model` when
present, else `llm_request.model_name`. -/
def extract_model (r : LlmRequest) : Option String :=
  match r.model with
  | some m => some m
  | none => r.model_name

/-- Config extraction shared by both callbacks: `llm_request.config` when the
attribute exists. -/
def extract_config (r : LlmRequest) : Option (List (String × String)) := r.config

/-- Response-content extraction in `after_model_callback`:
`llm_response.content` if that attribute exists, elif `llm_response.text`,
elif for a dict `get("content") or get("text")`. -/
def extract_response_content : LlmResponse → Option String
  | LlmResponse.obj (some c) _ => some c
  | LlmResponse.obj none t => t
  | LlmResponse.dict c t => pyOr c t

/-- The body of the `try` block of `before_model_callback`: extract prompt,
model and config; bail out as a miss when prompt or model is falsy; otherwise
derive the key, consult the cache and return the cached response (which is
`none` exactly on a miss). -/
def before_body (hash : String → String) (cfg : CacheConfig) (now : Int)
    (cache : Store String) (req : LlmRequest) :
    Except String (Option String × Store String) :=
  let prompt := extract_prompt req
  let modelName := extract_model req
  if falsyStr prompt || falsyStr modelName then Except.ok (none, cache)
  else
    match prompt, modelName with
    | some p, some m =>
      let key := generate_cache_key hash p m (extract_config req)
      Except.ok (get_cached_response cfg now cache key)
    | _, _ => Except.ok (none, cache)

/-- The `except` clause of `before_model_callback`: any error from the body is
logged and turned into a miss with the store untouched. -/
def catchBefore (cache : Store String)
    (body : Except String (Option String × Store String)) :
    Option String × Store String :=
  match body with
  | Except.ok r => r
  | Except.error _ => (none, cache)

/-- Python `before_model_callback(callback_context, llm_request)`: returns the
cached response (to short-circuit the model call) or `none` (to proceed), plus
the possibly-mutated store. The whole computation is wrapped so the caller can
only ever observe `Except.ok`. -/
def before_model_callback (hash : String → String) (cfg : CacheConfig) (now : Int)
    (cache : Store String) (req : LlmRequest) :
    Except String (Option String × Store String) :=
  if !cfg.enabled then Except.ok (none, cache)
  else Except.ok (catchBefore cache (before_body hash cfg now cache req))

/-- The body of the `try` block of `after_model_callback`: extract prompt,
model, config and the response text; store nothing when prompt, model or the
extracted text is falsy; otherwise derive the same key and store the text. -/
def after_body (hash : String → String) (cfg : CacheConfig) (now : Int)
    (cache : Store String) (req : LlmRequest) (resp : LlmResponse) :
    Except String (Store String) :=
  let prompt := extract_prompt req
  let modelName := extract_model req
  if falsyStr prompt || falsyStr modelName then Except.ok cache
  else
    match prompt, modelName with
    | some p, some m =>
      let content := extract_response_content resp
      if falsyStr content then Except.ok cache
      else
        match content with
        | some t =>
          let key := generate_cache_key hash p m (extract_config req)
          Except.ok (set_cached_response cfg now cache key t)
        | none => Except.ok cache
    | _, _ => Except.ok cache

/-- The `except` clause of `after_model_callback`: any error from the body is
logged and the store left untouched. -/
def catchAfter (cache : Store String) (body : Except String (Store String)) :
    Store String :=
  match body with
  | Except.ok c => c
  | Except.error _ => cache

/-- Python `after_model_callback(callback_context, llm_request, llm_response)`:
stores the response text under the request fingerprint; returns the new store.
The whole computation is wrapped so the caller can only ever observe
`Except.ok`. -/
def after_model_callback (hash : String → String) (cfg : CacheConfig) (now : Int)
    (cache : Store String) (req : LlmRequest) (resp : LlmResponse) :
    Except String (Store String) :=
  if !cfg.enabled then Except.ok cache
  else Except.ok (catchAfter cache (after_body hash cfg now cache req resp))

/-- Modelled from the spec: `computeKey(prompt, modelIdentifier, extraConfig)`
as §Operations describes it — "pure function; fails with `InvalidInput` if
prompt or modelIdentifier is empty/absent". This definition follows the
spec's words, to be compared with `generate_cache_keyE`, the behaviour of the
code's `_generate_cache_key`. -/
def computeKeySpec (hash : String → String) (p m : String)
    (config : Option (List (String × String))) : Except String String :=
  if p.isEmpty || m.isEmpty then Except.error "InvalidInput"
  else Except.ok (generate_cache_key hash p m config)

/-! ### Store lemmas -/

/-- Deleting a key removes every binding of that key. -/
lemma storeFind_storeErase_self {α : Type} (c : Store α) (k : String) :
    storeFind (storeErase c k) k = none := by
  induction c with
  | nil => rfl
  | cons hd t ih =>
    obtain ⟨k₁, e₁⟩ := hd
    by_cases h : k₁ = k
    · simpa [storeErase, h] using ih
    · simp [storeErase, storeFind, h, ih]

/-- Deleting a key that is not bound leaves the store unchanged. -/
lemma storeErase_of_not_mem {α : Type} {c : Store α} {k : String}
    (h : k ∉ c.map Prod.fst) : storeErase c k = c := by
  induction c with
  | nil => rfl
  | cons hd t ih =>
    obtain ⟨k₁, e₁⟩ := hd
    simp only [List.map_cons, List.mem_cons] at h
    push_neg at h
    simp [storeErase, Ne.symm h.1, ih h.2]

/-- With unique keys, deleting a bound key shrinks the store by exactly one
entry. -/
lemma length_storeErase_of_find {α : Type} {c : Store α} {k : String}
    {e : CacheEntry α} (h : storeFind c k = some e)
    (hnd : (c.map Prod.fst).Nodup) :
    (storeErase c k).length + 1 = c.length := by
  induction c with
  | nil => simp [storeFind] at h
  | cons hd t ih =>
    obtain ⟨k₁, e₁⟩ := hd
    simp only [List.map_cons, List.nodup_cons] at hnd
    by_cases hk : k₁ = k
    · subst hk
      rw [storeErase, if_pos rfl, storeErase_of_not_mem hnd.1]
      simp
    · rw [storeFind, if_neg hk] at h
      rw [storeErase, if_neg hk]
      simpa using ih h hnd.2

/-! ### Claims -/

/-- C1: with the cache enabled and the TTL equal to zero, a put immediately
followed by a get of the same key (no time elapsed) returns the stored value,
and the lookup leaves the store as the put left it. -/
theorem c1_put_then_get_roundtrip {α : Type} (cfg : CacheConfig) (now : Int)
    (cache : Store α) (k : String) (v : α)
    (henabled : cfg.enabled = true) (httl : cfg.ttl = 0) :
    get_cached_response cfg now (set_cached_response cfg now cache k v) k
      = (some v, set_cached_response cfg now cache k v) := by
  simp [get_cached_response, set_cached_response, storeInsert, storeFind,
    henabled, httl]

/-- Witness for C1 at a concrete configuration, store, key and value. -/
theorem c1_witness :
    (CacheConfig.mk true 0).enabled = true ∧ (CacheConfig.mk true 0).ttl = 0 ∧
    get_cached_response (CacheConfig.mk true 0) 5
        (set_cached_response (CacheConfig.mk true 0) 5 ([] : Store String) "k" "v") "k"
      = (some "v", set_cached_response (CacheConfig.mk true 0) 5 ([] : Store String) "k" "v") :=
  ⟨rfl, rfl, c1_put_then_get_roundtrip (CacheConfig.mk true 0) 5 [] "k" "v" rfl rfl⟩

/-- C5: with the cache disabled, every get misses without touching the store,
every put leaves the store unchanged, and the stats report the cache as
disabled. -/
theorem c5_disabled_noop {α : Type} (cfg : CacheConfig) (now : Int)
    (cache : Store α) (k : String) (v : α)
    (hdis : cfg.enabled = false) :
    get_cached_response cfg now cache k = (none, cache)
      ∧ set_cached_response cfg now cache k v = cache
      ∧ (get_cache_stats cfg cache).enabled = false := by
  refine ⟨?_, ?_, ?_⟩ <;>
    simp [get_cached_response, set_cached_response, get_cache_stats, hdis]

/-- Witness for C5 at a concrete configuration, store, key and value. -/
theorem c5_witness :
    (CacheConfig.mk false 7).enabled = false ∧
    (get_cached_response (CacheConfig.mk false 7) 3
        [("k", CacheEntry.mk (some "old") (some 0))] "k"
      = (none, [("k", CacheEntry.mk (some "old") (some 0))])
    ∧ set_cached_response (CacheConfig.mk false 7) 3
        [("k", CacheEntry.mk (some "old") (some 0))] "k" "new"
      = [("k", CacheEntry.mk (some "old") (some 0))]
    ∧ (get_cache_stats (CacheConfig.mk false 7)
        [("k", (CacheEntry.mk (some "old") (some 0) : CacheEntry String))]).enabled = false) :=
  ⟨rfl, c5_disabled_noop (CacheConfig.mk false 7) 3
    [("k", CacheEntry.mk (some "old") (some 0))] "k" "new" rfl⟩

/-- C6: after a clear, every get misses (the store stays empty) and the stats
report size zero; the clear replaces the store with the empty one. -/
theorem c6_clear_empties {α : Type} (cfg : CacheConfig) (now : Int) (k : String) :
    get_cached_response cfg now (clear_cache (α := α)) k = (none, clear_cache)
      ∧ (get_cache_stats cfg (clear_cache (α := α))).size = 0 := by
  constructor
  · cases h : cfg.enabled <;> simp [get_cached_response, clear_cache, storeFind, h]
  · rfl

/-- C9: when no textual payload can be extracted from the response (no content
or text field, or an empty one), the after hook leaves the store completely
unchanged for every request. -/
theorem c9_uncacheable_response_frame (hash : String → String) (cfg : CacheConfig)
    (now : Int) (cache : Store String) (req : LlmRequest) (resp : LlmResponse)
    (h : falsyStr (extract_response_content resp) = true) :
    after_model_callback hash cfg now cache req resp = Except.ok cache := by
  cases he : cfg.enabled with
  | false => simp [after_model_callback, he]
  | true =>
    simp only [after_model_callback, he, Bool.not_true, Bool.false_eq_true,
      if_false, Except.ok.injEq]
    unfold after_body
    cases hp : extract_prompt req <;> cases hm : extract_model req
    all_goals simp [falsyStr, catchAfter, h]
    all_goals (split <;> simp_all [falsyStr, catchAfter])

/-- Witness for C9 at a concrete request and a response with no extractable
text. -/
theorem c9_witness :
    falsyStr (extract_response_content (LlmResponse.obj none none)) = true ∧
    after_model_callback (fun s => s) (CacheConfig.mk true 24) 0 []
        (LlmRequest.mk (some "Hello") none (some "m1") none none)
        (LlmResponse.obj none none)
      = Except.ok [] :=
  ⟨rfl, c9_uncacheable_response_frame (fun s => s) (CacheConfig.mk true 24) 0 []
    (LlmRequest.mk (some "Hello") none (some "m1") none none)
    (LlmResponse.obj none none) rfl⟩

/-- C8: neither hook ever surfaces an error to its caller — both always return
an ok result — and the except clause of each hook maps any internal error to a
miss that leaves the store untouched. -/
theorem c8_hooks_never_propagate (hash : String → String) (cfg : CacheConfig)
    (now : Int) (cache : Store String) (req : LlmRequest) (resp : LlmResponse)
    (e : String) :
    (∃ r, before_model_callback hash cfg now cache req = Except.ok r)
      ∧ (∃ c, after_model_callback hash cfg now cache req resp = Except.ok c)
      ∧ catchBefore cache (Except.error e) = (none, cache)
      ∧ catchAfter cache (Except.error e) = cache := by
  refine ⟨?_, ?_, rfl, rfl⟩
  · unfold before_model_callback
    split <;> exact ⟨_, rfl⟩
  · unfold after_model_callback
    split <;> exact ⟨_, rfl⟩

/-- C10: a get on a key holding an unexpired entry returns the entry's stored
response and leaves the store byte-for-byte unchanged — in particular the
stored timestamp still records the last put, so expiry keeps being measured
from the most recent write. -/
theorem c10_hit_does_not_refresh {α : Type} (cfg : CacheConfig) (now ts : Int)
    (cache : Store α) (k : String) (e : CacheEntry α)
    (henabled : cfg.enabled = true) (hfind : storeFind cache k = some e)
    (hts : e.timestamp = some ts) (hfresh : ¬ now - ts > cfg.ttl) :
    get_cached_response cfg now cache k = (e.response, cache) := by
  simp [get_cached_response, henabled, hfind, hts, hfresh]

/-- Witness for C10 at a concrete store holding one fresh entry. -/
theorem c10_witness :
    (CacheConfig.mk true 24).enabled = true ∧
    storeFind [("k", CacheEntry.mk (some "v") (some 10))] "k"
      = some (CacheEntry.mk (some "v") (some 10)) ∧
    (CacheEntry.mk (some "v") (some (10 : Int))).timestamp = some 10 ∧
    ¬ (30 : Int) - 10 > (CacheConfig.mk true 24).ttl ∧
    get_cached_response (CacheConfig.mk true 24) 30
        [("k", CacheEntry.mk (some "v") (some 10))] "k"
      = ((CacheEntry.mk (some "v") (some (10 : Int))).response,
         [("k", CacheEntry.mk (some "v") (some 10))]) :=
  ⟨rfl, rfl, rfl, by decide,
    c10_hit_does_not_refresh (CacheConfig.mk true 24) 30 10
      [("k", CacheEntry.mk (some "v") (some 10))] "k"
      (CacheEntry.mk (some "v") (some 10)) rfl rfl rfl (by decide)⟩

/-- C2: a get on a key whose entry's age strictly exceeds the TTL returns
absent, deletes the entry as a side effect of the lookup (so a later lookup of
the key misses), and the stats size drops by one — the expired entry is never
returned. -/
theorem c2_expired_entry_evicted {α : Type} (cfg : CacheConfig) (now ts : Int)
    (cache : Store α) (k : String) (e : CacheEntry α)
    (henabled : cfg.enabled = true) (hfind : storeFind cache k = some e)
    (hts : e.timestamp = some ts) (hexp : now - ts > cfg.ttl)
    (hnd : (cache.map Prod.fst).Nodup) :
    get_cached_response cfg now cache k = (none, storeErase cache k)
      ∧ storeFind (storeErase cache k) k = none
      ∧ (get_cache_stats cfg (storeErase cache k)).size + 1
          = (get_cache_stats cfg cache).size := by
  refine ⟨?_, storeFind_storeErase_self cache k, ?_⟩
  · simp [get_cached_response, henabled, hfind, hts, hexp]
  · exact length_storeErase_of_find hfind hnd

/-- Witness for C2 at a concrete store holding one stale entry. -/
theorem c2_witness :
    (CacheConfig.mk true 24).enabled = true ∧
    storeFind [("k", CacheEntry.mk (some "v") (some 0))] "k"
      = some (CacheEntry.mk (some "v") (some 0)) ∧
    (CacheEntry.mk (some "v") (some (0 : Int))).timestamp = some 0 ∧
    (100 : Int) - 0 > (CacheConfig.mk true 24).ttl ∧
    ((([("k", CacheEntry.mk (some "v") (some (0 : Int)))] : Store String).map
      Prod.fst).Nodup) ∧
    (get_cached_response (CacheConfig.mk true 24) 100
        [("k", CacheEntry.mk (some "v") (some 0))] "k"
      = (none, storeErase [("k", CacheEntry.mk (some "v") (some 0))] "k")
    ∧ storeFind (storeErase [("k", CacheEntry.mk (some "v") (some (0 : Int)))] "k") "k"
      = none
    ∧ (get_cache_stats (CacheConfig.mk true 24)
        (storeErase [("k", CacheEntry.mk (some "v") (some (0 : Int)))] "k")).size + 1
      = (get_cache_stats (CacheConfig.mk true 24)
          [("k", CacheEntry.mk (some "v") (some (0 : Int)))]).size) :=
  ⟨rfl, rfl, rfl, by decide, by decide,
    c2_expired_entry_evicted (CacheConfig.mk true 24) 100 0
      [("k", CacheEntry.mk (some "v") (some 0))] "k"
      (CacheEntry.mk (some "v") (some 0)) rfl rfl rfl (by decide) (by decide)⟩

/-! ### Sorting lemmas for key canonicalization -/

/-- Characters with equal code points are equal. -/
lemma char_eq_of_toNat_eq {a b : Char} (h : a.toNat = b.toNat) : a = b := by
  have ha := Char.ofNat_toNat a
  rw [h, Char.ofNat_toNat b] at ha
  exact ha.symm

/-- The code-point order on character lists is total. -/
lemma charListLe_total : ∀ x y : List Char,
    charListLe x y = true ∨ charListLe y x = true
  | [], _ => Or.inl rfl
  | _ :: _, [] => Or.inr rfl
  | a :: as, b :: bs => by
    rcases Nat.lt_trichotomy a.toNat b.toNat with h | h | h
    · left
      simp [charListLe, h]
    · rcases charListLe_total as bs with ih | ih
      · left
        simp [charListLe, h, ih]
      · right
        simp [charListLe, h, ih]
    · right
      simp [charListLe, h]

/-- The code-point order on character lists is transitive. -/
lemma charListLe_trans : ∀ x y z : List Char,
    charListLe x y = true → charListLe y z = true → charListLe x z = true
  | [], _, _ => fun _ _ => rfl
  | _ :: _, [], _ => by
    intro h _
    simp [charListLe] at h
  | _ :: _, _ :: _, [] => by
    intro _ h
    simp [charListLe] at h
  | a :: as, b :: bs, c :: cs => by
    intro h₁ h₂
    simp only [charListLe] at h₁ h₂ ⊢
    rcases Nat.lt_trichotomy a.toNat b.toNat with hab | hab | hab
    · rcases Nat.lt_trichotomy b.toNat c.toNat with hbc | hbc | hbc
      · simp [show a.toNat < c.toNat by omega]
      · simp [show a.toNat < c.toNat by omega]
      · rw [if_neg (by omega), if_pos hbc] at h₂
        cases h₂
    · rcases Nat.lt_trichotomy b.toNat c.toNat with hbc | hbc | hbc
      · simp [show a.toNat < c.toNat by omega]
      · rw [if_neg (by omega), if_neg (by omega)] at h₁ h₂
        rw [if_neg (by omega), if_neg (by omega)]
        exact charListLe_trans as bs cs h₁ h₂
      · rw [if_neg (by omega), if_pos hbc] at h₂
        cases h₂
    · rw [if_neg (by omega), if_pos hab] at h₁
      cases h₁

/-- The code-point order on character lists is antisymmetric. -/
lemma charListLe_antisymm : ∀ x y : List Char,
    charListLe x y = true → charListLe y x = true → x = y
  | [], [] => fun _ _ => rfl
  | [], _ :: _ => by
    intro _ h
    simp [charListLe] at h
  | _ :: _, [] => by
    intro h _
    simp [charListLe] at h
  | a :: as, b :: bs => by
    intro h₁ h₂
    simp only [charListLe] at h₁ h₂
    rcases Nat.lt_trichotomy a.toNat b.toNat with hab | hab | hab
    · rw [if_neg (by omega), if_pos hab] at h₂
      cases h₂
    · rw [if_neg (by omega), if_neg (by omega)] at h₁ h₂
      rw [char_eq_of_toNat_eq hab, charListLe_antisymm as bs h₁ h₂]
    · rw [if_neg (by omega), if_pos hab] at h₁
      cases h₁

/-- Sorting by key maps two permuted duplicate-free mappings to the same
list. -/
lemma insertionSort_keyRel_eq_of_perm {l₁ l₂ : List (String × String)}
    (hperm : l₁.Perm l₂) (hnd : (l₁.map Prod.fst).Nodup) :
    List.insertionSort keyRel l₁ = List.insertionSort keyRel l₂ := by
  haveI htot : IsTotal (String × String) keyRel :=
    ⟨fun a b => charListLe_total a.1.data b.1.data⟩
  haveI htrans : IsTrans (String × String) keyRel :=
    ⟨fun a b c hab hbc => charListLe_trans a.1.data b.1.data c.1.data hab hbc⟩
  have p₁ := List.perm_insertionSort keyRel l₁
  have p₂ := List.perm_insertionSort keyRel l₂
  have hp : (List.insertionSort keyRel l₁).Perm (List.insertionSort keyRel l₂) :=
    p₁.trans (hperm.trans p₂.symm)
  have hnd₂ : (l₂.map Prod.fst).Nodup := ((hperm.map Prod.fst).nodup_iff).mp hnd
  have sortedStrict : ∀ l : List (String × String), (l.map Prod.fst).Nodup →
      List.Sorted (fun a b : String × String => keyRel a b ∧ a.1 ≠ b.1)
        (List.insertionSort keyRel l) := by
    intro l hl
    have hs := List.sorted_insertionSort keyRel l
    have hndm : ((List.insertionSort keyRel l).map Prod.fst).Nodup :=
      (((List.perm_insertionSort keyRel l).map Prod.fst).nodup_iff).mpr hl
    have hne : (List.insertionSort keyRel l).Pairwise (fun a b => a.1 ≠ b.1) :=
      List.pairwise_map.mp hndm
    exact hs.and hne
  haveI : IsAntisymm (String × String)
      (fun a b : String × String => keyRel a b ∧ a.1 ≠ b.1) := by
    constructor
    intro a b hab hba
    obtain ⟨⟨xd⟩, xv⟩ := a
    obtain ⟨⟨yd⟩, yv⟩ := b
    have hdata : xd = yd := charListLe_antisymm xd yd hab.1 hba.1
    exact absurd (congrArg String.mk hdata) hab.2
  exact List.eq_of_perm_of_sorted hp (sortedStrict l₁ hnd) (sortedStrict l₂ hnd₂)

/-- C3: the cache key is deterministic over canonical inputs — a config
mapping supplied in a different key order, and a prompt differing only up to
the strip-and-lowercase normalization, produce the same key. -/
theorem c3_key_deterministic (hash : String → String) (p₁ p₂ m : String)
    (c₁ c₂ : List (String × String))
    (hprompt : normalizePrompt p₁ = normalizePrompt p₂)
    (hperm : c₁.Perm c₂) (hnd : (c₁.map Prod.fst).Nodup) :
    generate_cache_key hash p₁ m (some c₁) = generate_cache_key hash p₂ m (some c₂) := by
  unfold generate_cache_key cacheStr configJson
  simp only [Option.getD_some]
  rw [hprompt, insertionSort_keyRel_eq_of_perm hperm hnd]

/-- Witness for C3: the same logical request with reordered config keys and a
prompt changed only in surrounding whitespace and case. -/
theorem c3_witness :
    normalizePrompt "  Hello " = normalizePrompt "hello" ∧
    ([("b", "2"), ("a", "1")].Perm [("a", "1"), ("b", "2")]) ∧
    (([("b", "2"), ("a", "1")].map Prod.fst).Nodup) ∧
    generate_cache_key (fun s => s) "  Hello " "m1" (some [("b", "2"), ("a", "1")])
      = generate_cache_key (fun s => s) "hello" "m1" (some [("a", "1"), ("b", "2")]) :=
  ⟨by decide, by decide, by decide,
    c3_key_deterministic (fun s => s) "  Hello " "hello" "m1"
      [("b", "2"), ("a", "1")] [("a", "1"), ("b", "2")]
      (by decide) (by decide) (by decide)⟩

/-- C4: starting from a cleared store, running the after hook on a request
with non-empty extractable prompt and model and a response with non-empty
extractable text stores exactly one entry; a subsequent before hook on the
identical request within the TTL window returns that stored text (a non-none
value, short-circuiting the downstream call) and the stats report size one. -/
theorem c4_end_to_end_roundtrip (hash : String → String) (cfg : CacheConfig)
    (t₀ t₁ : Int) (req : LlmRequest) (resp : LlmResponse) (p m t : String)
    (henabled : cfg.enabled = true)
    (hp : extract_prompt req = some p) (hpne : p.isEmpty = false)
    (hm : extract_model req = some m) (hmne : m.isEmpty = false)
    (hr : extract_response_content resp = some t) (htne : t.isEmpty = false)
    (hfresh : ¬ t₁ - t₀ > cfg.ttl) :
    after_model_callback hash cfg t₀ clear_cache req resp
      = Except.ok [(generate_cache_key hash p m (extract_config req),
                    CacheEntry.mk (some t) (some t₀))]
      ∧ before_model_callback hash cfg t₁
          [(generate_cache_key hash p m (extract_config req),
            CacheEntry.mk (some t) (some t₀))] req
        = Except.ok (some t,
            [(generate_cache_key hash p m (extract_config req),
              CacheEntry.mk (some t) (some t₀))])
      ∧ (get_cache_stats cfg
          [(generate_cache_key hash p m (extract_config req),
            (CacheEntry.mk (some t) (some t₀) : CacheEntry String))]).size = 1 := by
  refine ⟨?_, ?_, rfl⟩
  · simp [after_model_callback, after_body, henabled, hp, hm, hr, falsyStr,
      hpne, hmne, htne, catchAfter, set_cached_response, storeInsert,
      storeErase, clear_cache]
  · simp [before_model_callback, before_body, henabled, hp, hm, falsyStr,
      hpne, hmne, catchBefore, get_cached_response, storeFind, hfresh]

/-- Witness for C4 at the spec's concrete request and response. -/
theorem c4_witness :
    (CacheConfig.mk true 86400).enabled = true ∧
    extract_prompt (LlmRequest.mk (some "Hello") none (some "m1") none none)
      = some "Hello" ∧
    "Hello".isEmpty = false ∧
    extract_model (LlmRequest.mk (some "Hello") none (some "m1") none none)
      = some "m1" ∧
    "m1".isEmpty = false ∧
    extract_response_content (LlmResponse.obj (some "Hi there") none)
      = some "Hi there" ∧
    "Hi there".isEmpty = false ∧
    ¬ (3600 : Int) - 0 > (CacheConfig.mk true 86400).ttl ∧
    (after_model_callback (fun s => s) (CacheConfig.mk true 86400) 0 clear_cache
        (LlmRequest.mk (some "Hello") none (some "m1") none none)
        (LlmResponse.obj (some "Hi there") none)
      = Except.ok [(generate_cache_key (fun s => s) "Hello" "m1"
            (extract_config (LlmRequest.mk (some "Hello") none (some "m1") none none)),
          CacheEntry.mk (some "Hi there") (some 0))]
    ∧ before_model_callback (fun s => s) (CacheConfig.mk true 86400) 3600
          [(generate_cache_key (fun s => s) "Hello" "m1"
              (extract_config (LlmRequest.mk (some "Hello") none (some "m1") none none)),
            CacheEntry.mk (some "Hi there") (some 0))]
          (LlmRequest.mk (some "Hello") none (some "m1") none none)
        = Except.ok (some "Hi there",
            [(generate_cache_key (fun s => s) "Hello" "m1"
                (extract_config (LlmRequest.mk (some "Hello") none (some "m1") none none)),
              CacheEntry.mk (some "Hi there") (some 0))])
    ∧ (get_cache_stats (CacheConfig.mk true 86400)
          [(generate_cache_key (fun s => s) "Hello" "m1"
              (extract_config (LlmRequest.mk (some "Hello") none (some "m1") none none)),
            (CacheEntry.mk (some "Hi there") (some (0 : Int)) : CacheEntry String))]).size
        = 1) :=
  ⟨rfl, rfl, rfl, rfl, rfl, rfl, rfl, by decide,
    c4_end_to_end_roundtrip (fun s => s) (CacheConfig.mk true 86400) 0 3600
      (LlmRequest.mk (some "Hello") none (some "m1") none none)
      (LlmResponse.obj (some "Hi there") none) "Hello" "m1" "Hi there"
      rfl rfl rfl rfl rfl rfl rfl (by decide)⟩

/-- C7, counterexample: the spec-modelled `computeKey` rejects an empty prompt
with an `InvalidInput` error, but the code's `_generate_cache_key` on the same
input succeeds, returning the digest of the canonical serialization — it has
no failure path for empty strings. -/
theorem c7_counterexample :
    computeKeySpec (fun s => s) "" "m1" none = Except.error "InvalidInput"
      ∧ generate_cache_keyE (fun s => s) "" "m1" none
        = Except.ok "\x7b\"config\": \x7b\x7d, \"model\": \"m1\", \"prompt\": \"\"\x7d" :=
  ⟨rfl, congrArg Except.ok (by decide)⟩

/-- C7, amended: the empty/absent-input check lives in the hooks, not in the
key derivation — whenever the extracted prompt or model is empty or absent,
the before hook returns a miss without touching the store and the after hook
stores nothing, and no error is surfaced. -/
theorem c7_amended_hooks_skip_on_missing_input (hash : String → String)
    (cfg : CacheConfig) (now : Int) (cache : Store String) (req : LlmRequest)
    (resp : LlmResponse)
    (h : falsyStr (extract_prompt req) = true ∨ falsyStr (extract_model req) = true) :
    before_model_callback hash cfg now cache req = Except.ok (none, cache)
      ∧ after_model_callback hash cfg now cache req resp = Except.ok cache := by
  have hb : (falsyStr (extract_prompt req) || falsyStr (extract_model req)) = true := by
    rcases h with h | h <;> simp [h]
  constructor <;> cases he : cfg.enabled <;>
    simp [before_model_callback, after_model_callback, before_body, after_body,
      hb, catchBefore, catchAfter, he]

/-- Witness for the amended C7 at a concrete request with an absent prompt. -/
theorem c7_amended_witness :
    (falsyStr (extract_prompt (LlmRequest.mk none none (some "m1") none none)) = true
      ∨ falsyStr (extract_model (LlmRequest.mk none none (some "m1") none none)) = true) ∧
    (before_model_callback (fun s => s) (CacheConfig.mk true 24) 0 []
        (LlmRequest.mk none none (some "m1") none none)
      = Except.ok (none, [])
    ∧ after_model_callback (fun s => s) (CacheConfig.mk true 24) 0 []
        (LlmRequest.mk none none (some "m1") none none)
        (LlmResponse.obj (some "Hi") none)
      = Except.ok []) :=
  ⟨Or.inl rfl,
    c7_amended_hooks_skip_on_missing_input (fun s => s) (CacheConfig.mk true 24) 0 []
      (LlmRequest.mk none none (some "m1") none none)
      (LlmResponse.obj (some "Hi") none) (Or.inl rfl)⟩

end BeaconCache
